import Mathlib

/-!
Shallow embedding of the graphrag-accelerator frontend
(`src/frontend/components/functions.py`, `src/frontend/components/index_pipeline.py`).

HTTP is modelled by an outcome type: performing a request either yields a
response (status code and parsed JSON body) or a transport exception.  Python
functions that can raise are embedded as functions into `PyResult`/`Except`;
a total Lean return type records that the Python code cannot raise.
Streamlit's `st.error` side channel is modelled as a list of emitted error
messages.
-/

namespace GraphragFrontend

/-- ASCII lower-casing of one character, as `str.lower()` does on ASCII. -/
def pyCharLower (c : Char) : Char :=
  if 65 ≤ c.toNat ∧ c.toNat ≤ 90 then Char.ofNat (c.toNat + 32) else c

/-- Python `s.lower()` (modelled on ASCII strings, which is all the frontend
passes as query types). -/
def pyLower (s : String) : String := ⟨s.data.map pyCharLower⟩

/-- Python `s.startswith(pre)`. -/
def pyStartswith (s pre : String) : Bool := pre.data.isPrefixOf s.data

/-- Python `s.endswith(suf)`. -/
def pyEndswith (s suf : String) : Bool := suf.data.isSuffixOf s.data

/-- Parsed JSON values, as returned by `response.json()`. -/
inductive Json where
  | null
  | bool (b : Bool)
  | num (n : Int)
  | str (s : String)
  | arr (elems : List Json)
  | obj (fields : List (String × Json))

/-- An HTTP request as assembled by the wrapper functions. -/
structure Request where
  method : String
  url : String
  headers : List (String × String)
  params : List (String × String) := []
  jsonBody : Option Json := none
  files : List (String × String) := []

/-- Outcome of performing a request: a response (status code and JSON body)
or a transport exception raised by `requests`. -/
inductive HttpOutcome where
  | response (status : Nat) (body : Json)
  | exception (msg : String)

/-- Result of a Python call as seen by its caller: a normal return value or a
propagated (uncaught) exception. -/
inductive PyResult (α : Type) where
  | ok (a : α)
  | raised (msg : String)

/-- A raw `requests.Response`, as returned (unparsed) by `build_index`. -/
structure Response where
  status : Nat
  body : Json

/-- `True` exactly on outcomes the spec calls failures: a non-200 response or
a transport exception. -/
def is_failure : HttpOutcome → Bool
  | .response status _ => status != 200
  | .exception _ => true

/-- Request issued by `get_storage_container_names`: `GET {api_url}/data`. -/
def get_storage_container_names_request (api_url : String)
    (headers : List (String × String)) : Request :=
  { method := "GET", url := api_url ++ "/data", headers := headers }

/-- `get_storage_container_names`: returns parsed JSON on HTTP 200, otherwise
emits an error message and returns `None`; all exceptions are caught. -/
def get_storage_container_names (api_url : String) (headers : List (String × String))
    (perform : Request → HttpOutcome) : PyResult (Option Json) × List String :=
  match perform (get_storage_container_names_request api_url headers) with
  | .response status body =>
      if status == 200 then (.ok (some body), [])
      else (.ok none, ["Error: " ++ toString status])
  | .exception e => (.ok none, ["Error: " ++ e])

/-- Request issued by `get_entity_data`: `GET {api_url}/index/config/entity`. -/
def get_entity_data_request (api_url : String)
    (headers : List (String × String)) : Request :=
  { method := "GET", url := api_url ++ "/index/config/entity", headers := headers }

/-- `get_entity_data`: same swallow-all error handling as the other GET wrappers. -/
def get_entity_data (api_url : String) (headers : List (String × String))
    (perform : Request → HttpOutcome) : PyResult (Option Json) × List String :=
  match perform (get_entity_data_request api_url headers) with
  | .response status body =>
      if status == 200 then (.ok (some body), [])
      else (.ok none, ["Error: " ++ toString status])
  | .exception e => (.ok none, ["Error: " ++ e])

/-- Request issued by `get_indexes_data`: `GET {api_url}/index`.
The `@st.cache_data` memoisation is not modelled: it does not change the
value computed for a given input. -/
def get_indexes_data_request (api_url : String)
    (headers : List (String × String)) : Request :=
  { method := "GET", url := api_url ++ "/index", headers := headers }

/-- `get_indexes_data`: same swallow-all error handling as the other GET wrappers. -/
def get_indexes_data (api_url : String) (headers : List (String × String))
    (perform : Request → HttpOutcome) : PyResult (Option Json) × List String :=
  match perform (get_indexes_data_request api_url headers) with
  | .response status body =>
      if status == 200 then (.ok (some body), [])
      else (.ok none, ["Error: " ++ toString status])
  | .exception e => (.ok none, ["Error: " ++ e])

/-- Request issued by `build_index`: `POST {api_url}/index` with query params
`index_name`, `storage_name` and up to three optional multipart prompt files.
A prompt argument is attached only when it is given and non-empty
(Python truthiness of the filepath string). -/
def build_index_request (api_url : String) (headers : List (String × String))
    (storage_name index_name : String)
    (entity_extraction_prompt_filepath community_prompt_filepath
      summarize_description_prompt_filepath : Option String) : Request :=
  let attach : String → Option String → List (String × String) := fun part arg =>
    match arg with
    | some f => if f = "" then [] else [(part, f)]
    | none => []
  { method := "POST", url := api_url ++ "/index", headers := headers,
    params := [("index_name", index_name), ("storage_name", storage_name)],
    files :=
      attach "entity_extraction_prompt" entity_extraction_prompt_filepath
        ++ attach "community_report_prompt" community_prompt_filepath
        ++ attach "summarize_descriptions_prompt" summarize_description_prompt_filepath }

/-- `build_index`: POSTs the build job and returns the raw `requests.Response`
to the caller.  There is no try/except and no status check: a transport
exception propagates, and a non-200 response is returned as data. -/
def build_index (api_url : String) (headers : List (String × String))
    (storage_name index_name : String)
    (entity_extraction_prompt_filepath community_prompt_filepath
      summarize_description_prompt_filepath : Option String)
    (perform : Request → HttpOutcome) : PyResult Response × List String :=
  match perform (build_index_request api_url headers storage_name index_name
      entity_extraction_prompt_filepath community_prompt_filepath
      summarize_description_prompt_filepath) with
  | .response status body => (.ok ⟨status, body⟩, [])
  | .exception e => (.raised e, [])

/-- Request issued by `query_index`:
`POST {api_url}/query/{query_type.lower()}` with JSON body
`{"index_name": index_name, "query": query, "reformat_context_data": true}`. -/
def query_index_request (index_name : List String) (query_type query : String)
    (api_url : String) (headers : List (String × String)) : Request :=
  { method := "POST",
    url := api_url ++ "/query/" ++ pyLower query_type,
    headers := headers,
    jsonBody := some (Json.obj
      [("index_name", Json.arr (index_name.map Json.str)),
       ("query", Json.str query),
       ("reformat_context_data", Json.bool true)]) }

/-- `query_index`: returns parsed JSON on HTTP 200, otherwise emits an error
message and returns `None`; all exceptions are caught. -/
def query_index (index_name : List String) (query_type query : String)
    (api_url : String) (headers : List (String × String))
    (perform : Request → HttpOutcome) : PyResult (Option Json) × List String :=
  match perform (query_index_request index_name query_type query api_url headers) with
  | .response status body =>
      if status == 200 then (.ok (some body), [])
      else (.ok none, ["Error: " ++ toString status])
  | .exception e => (.ok none, ["Error: " ++ e])

/-- Request issued by `get_source_entity`:
`GET {api_url}/source/entity/{index_name}/{entity_id}`. -/
def get_source_entity_request (index_name entity_id api_url : String)
    (headers : List (String × String)) : Request :=
  { method := "GET",
    url := api_url ++ "/source/entity/" ++ index_name ++ "/" ++ entity_id,
    headers := headers }

/-- `get_source_entity`: returns parsed JSON on HTTP 200, otherwise emits an
error message and returns `None`; all exceptions are caught. -/
def get_source_entity (index_name entity_id api_url : String)
    (headers : List (String × String))
    (perform : Request → HttpOutcome) : PyResult (Option Json) × List String :=
  match perform (get_source_entity_request index_name entity_id api_url headers) with
  | .response status body =>
      if status == 200 then (.ok (some body), [])
      else (.ok none, ["Error: " ++ toString status])
  | .exception e => (.ok none, ["Error: " ++ e])

/-- Python subscripting `value[key]`: succeeds when `value` is a dict holding
`key`; raises `KeyError` on a dict missing the key and `TypeError` on a
non-dict. -/
def pyGetItem (j : Json) (key : String) : Except String Json :=
  match j with
  | .obj fields =>
      match fields.lookup key with
      | some v => .ok v
      | none => .error ("KeyError: " ++ key)
  | _ => .error "TypeError: object is not subscriptable"

/-- `show_index_options`: starts from `[""]`, tries to append
`indexes["index_name"]` (which must be a list for Python `+` to succeed), and
on any exception keeps `[""]`.  Total: the try/except catches everything. -/
def show_index_options (indexes : Json) : List Json :=
  match pyGetItem indexes "index_name" with
  | .ok (.arr elems) => Json.str "" :: elems
  | _ => [Json.str ""]

/-- `IndexPipeline._parse_container_names`: identical shape to
`show_index_options` but reads the `storage_name` key. -/
def parse_container_names (containers : Json) : List Json :=
  match pyGetItem containers "storage_name" with
  | .ok (.arr elems) => Json.str "" :: elems
  | _ => [Json.str ""]

/-! ### Prompt bundle manager -/

/-- The bytes downloaded into `prompts.zip`: either a well-formed archive
(a list of entry names with their text contents — the files that
`extractall` places in the prompt directory) or a malformed archive. -/
inductive ZipBytes where
  | valid (entries : List (String × String))
  | malformed

/-- Outcome of the streaming `GET /index/config/prompts` download. -/
inductive StreamOutcome where
  | response (status : Nat) (body : ZipBytes)
  | exception (msg : String)

/-- `_generate_prompts`: streams the archive to `zip_file_name`.
`r.raise_for_status()` runs before the file is opened and, per `requests`,
raises exactly for statuses in `[400, 600)`; a transport exception also
propagates (there is no try/except).  The first component is the file
written (`none` = nothing was written). -/
def generate_prompts_download (outcome : StreamOutcome) :
    Option ZipBytes × Except String Unit :=
  match outcome with
  | .exception e => (none, .error e)
  | .response status body =>
      if 400 ≤ status ∧ status < 600 then
        (none, .error ("HTTPError: " ++ toString status))
      else
        (some body, .ok ())

/-- `_extract_prompts_from_zip`: opens the written zip file and extracts all
entries; a missing file or a malformed archive raises. -/
def extract_prompts_from_zip (file : Option ZipBytes) :
    Except String (List (String × String)) :=
  match file with
  | none => .error "FileNotFoundError"
  | some .malformed => .error "BadZipFile"
  | some (.valid entries) => .ok entries

/-- `generate_and_extract_prompts`: download then extract, both raising on
failure.  On success the result is the extracted prompt-directory contents. -/
def generate_and_extract_prompts (outcome : StreamOutcome) :
    Except String (List (String × String)) :=
  let (file, downloaded) := generate_prompts_download outcome
  match downloaded with
  | .error e => .error e
  | .ok () => extract_prompts_from_zip file

/-- A local prompt directory: file names paired with their text contents, in
directory-iteration order. -/
abbrev PromptDir : Type := List (String × String)

/-- The contents of the `.txt` files in `dir` whose name begins with `pre`,
in directory order — the list `get_prompts` indexes with `[0]`. -/
def txtMatches (dir : PromptDir) (pre : String) : List String :=
  ((dir.filter (fun f => pyEndswith f.1 ".txt")).filter
    (fun f => pyStartswith f.1 pre)).map Prod.snd

/-- The Python `IndexError` raised by `[...][0]` on an empty list. -/
def indexErrorMsg : String := "IndexError: list index out of range"

/-- `get_prompts`: reads the first `.txt` file matching each of the name
beginnings `summ`, `entity`, `community` (in that evaluation order); the
`[0]` subscript raises `IndexError` when a match list is empty. -/
def get_prompts (dir : PromptDir) : Except String (String × String × String) :=
  match txtMatches dir "summ" with
  | [] => .error indexErrorMsg
  | summ_prompt :: _ =>
      match txtMatches dir "entity" with
      | [] => .error indexErrorMsg
      | entity_ext_prompt :: _ =>
          match txtMatches dir "community" with
          | [] => .error indexErrorMsg
          | comm_report_prompt :: _ =>
              .ok (summ_prompt, entity_ext_prompt, comm_report_prompt)

/-! ### Workflow/session state holder -/

/-- Streamlit session state: keys mapped to stored values.  A stored value is
`Option String`: `some s` embeds a Python string, `none` embeds Python
`None` (the prompt arguments default to `None` and are stored as-is). -/
abbrev SessionState : Type := List (String × Option String)

/-- Python dict assignment `state[k] = v`: overwrite the existing entry for
`k`, else append a new one. -/
def setVal (s : SessionState) (k : String) (v : Option String) : SessionState :=
  match s with
  | [] => [(k, v)]
  | (k', v') :: rest =>
      if k' = k then (k', v) :: rest else (k', v') :: setVal rest k v

/-- One loop iteration of `set_session_state_variables`:
`if value not in st.session_state: st.session_state[value] = ""`. -/
def initKey (s : SessionState) (k : String) : SessionState :=
  if (s.lookup k).isSome then s else setVal s k (some "")

/-- Modelled from the spec: `prompt_enum.py` (the `PromptKeys` enum used by
`functions.py`) is not under `src/`; the spec describes the session keys as a
fixed set of string keys for the summary, entity-extraction and
community-report prompts.  The enum's three values are modelled as three
distinct key strings. -/
def PromptKeys_SUMMARY : String := "summary"

/-- Modelled from the spec: the entity-extraction prompt key of `PromptKeys`. -/
def PromptKeys_ENTITY : String := "entity"

/-- Modelled from the spec: the community-report prompt key of `PromptKeys`. -/
def PromptKeys_COMMUNITY : String := "community"

/-- The key values iterated by `for key in PromptKeys`. -/
def promptKeyValues : List String :=
  [PromptKeys_SUMMARY, PromptKeys_ENTITY, PromptKeys_COMMUNITY]

/-- The four keys `set_session_state_variables` initializes. -/
def sessionInitKeys : List String := promptKeyValues ++ ["build_index_name"]

/-- `set_session_state_variables`: for each prompt key, and then for
`build_index_name`, create the key with `""` only when it is absent. -/
def set_session_state_variables (s : SessionState) : SessionState :=
  sessionInitKeys.foldl initKey s

/-- `update_session_state_prompt_vars`: when `initial_setting` is set, the
three explicit arguments are replaced by the triple loaded by `get_prompts`
(whose `IndexError` propagates); the three values are then stored under the
prompt keys. -/
def update_session_state_prompt_vars (summarize entity_extract community : Option String)
    (initial_setting : Bool) (prompt_dir : PromptDir) (s : SessionState) :
    Except String SessionState :=
  let vals : Except String (Option String × Option String × Option String) :=
    if initial_setting then
      match get_prompts prompt_dir with
      | .error e => .error e
      | .ok (su, en, co) => .ok (some su, some en, some co)
    else
      .ok (summarize, entity_extract, community)
  match vals with
  | .error e => .error e
  | .ok (su, en, co) =>
      .ok (setVal (setVal (setVal s PromptKeys_SUMMARY su) PromptKeys_ENTITY en)
        PromptKeys_COMMUNITY co)

/-! ### Lemmas about the session-state operations -/

theorem lookup_setVal (s : SessionState) (k j : String) (v : Option String) :
    (setVal s k v).lookup j = if j = k then some v else s.lookup j := by
  induction s with
  | nil =>
      by_cases h : j = k
      · simp [setVal, List.lookup, h]
      · have hb : (j == k) = false := beq_eq_false_iff_ne.mpr h
        simp [setVal, List.lookup, h, hb]
  | cons p rest ih =>
      obtain ⟨k', v'⟩ := p
      by_cases hk : k' = k
      · subst hk
        by_cases hj : j = k'
        · simp [setVal, List.lookup, hj]
        · have hb : (j == k') = false := beq_eq_false_iff_ne.mpr hj
          simp [setVal, List.lookup, hj, hb]
      · by_cases hj : j = k'
        · subst hj
          simp [setVal, List.lookup, hk, Ne.symm hk]
        · have hb : (j == k') = false := beq_eq_false_iff_ne.mpr hj
          simp [setVal, List.lookup, hk, hj, hb, ih]

theorem lookup_initKey (s : SessionState) (k j : String) :
    (initKey s k).lookup j =
      if j = k then some ((s.lookup k).getD (some "")) else s.lookup j := by
  unfold initKey
  rcases hs : s.lookup k with _ | v
  · simp only [hs, Option.isSome_none, Bool.false_eq_true, if_false, lookup_setVal]
    by_cases hj : j = k <;> simp [hj, hs]
  · simp only [hs, Option.isSome_some, if_true]
    by_cases hj : j = k <;> simp [hj, hs]

theorem lookup_foldl_initKey (keys : List String) (s : SessionState) (j : String) :
    (keys.foldl initKey s).lookup j =
      if j ∈ keys then some ((s.lookup j).getD (some "")) else s.lookup j := by
  induction keys generalizing s with
  | nil => simp
  | cons k rest ih =>
      simp only [List.foldl_cons, ih, lookup_initKey]
      by_cases hjk : j = k
      · subst hjk
        by_cases hmem : j ∈ rest <;> simp [hmem]
      · by_cases hmem : j ∈ rest <;>
          simp [hmem, hjk]

theorem initKey_of_present (s : SessionState) (k : String)
    (h : (s.lookup k).isSome) : initKey s k = s := by
  simp [initKey, h]

theorem foldl_initKey_of_present (keys : List String) (s : SessionState)
    (h : ∀ k ∈ keys, (s.lookup k).isSome) : keys.foldl initKey s = s := by
  induction keys with
  | nil => rfl
  | cons k rest ih =>
      rw [List.foldl_cons, initKey_of_present s k (h k (List.mem_cons_self k rest))]
      exact ih (fun k' hk' => h k' (List.mem_cons_of_mem k hk'))

/-- `true` when Python `[""] + value[key]` would succeed: the lookup returns
a value and that value is a list. -/
def concatOk (j : Json) (key : String) : Bool :=
  match pyGetItem j key with
  | .ok (.arr _) => true
  | _ => false

/-! ### Claims -/

/-- Claim C9: for the index-list response `{"index_name": ["foo","bar"]}` the
index-option builder returns exactly `["", "foo", "bar"]` — the empty-string
placeholder followed by the returned names in order. -/
theorem claim_C9 :
    show_index_options (Json.obj [("index_name",
        Json.arr [Json.str "foo", Json.str "bar"])]) =
      [Json.str "", Json.str "foo", Json.str "bar"] := rfl

/-- Claim C8: when the storage-container list call returns zero containers —
the `storage_name` entry is missing or is the empty list — the parsed
selection list is exactly the one-element empty-string placeholder list. -/
theorem claim_C8 (containers : Json)
    (h : pyGetItem containers "storage_name" = .ok (Json.arr []) ∨
      ∃ e, pyGetItem containers "storage_name" = .error e) :
    parse_container_names containers = [Json.str ""] := by
  unfold parse_container_names
  rcases h with h | ⟨e, h⟩ <;> rw [h]

/-- Witness for C8 at the concrete input `{}` (missing `storage_name`). -/
theorem claim_C8_witness :
    (∃ e, pyGetItem (Json.obj []) "storage_name" = .error e) ∧
      parse_container_names (Json.obj []) = [Json.str ""] :=
  ⟨⟨"KeyError: storage_name", rfl⟩,
    claim_C8 (Json.obj []) (Or.inr ⟨"KeyError: storage_name", rfl⟩)⟩

/-- Claim C10: on every JSON input — a dict missing the key, a non-dict, or a
value that cannot be concatenated to a list — the two option-list builders
are total (they are functions into `List Json`, never raising), always return
a list headed by the empty string, and return exactly `[""]` whenever the
lookup or concatenation fails. -/
theorem claim_C10 (j : Json) :
    (∃ rest, show_index_options j = Json.str "" :: rest) ∧
    (∃ rest, parse_container_names j = Json.str "" :: rest) ∧
    (concatOk j "index_name" = false → show_index_options j = [Json.str ""]) ∧
    (concatOk j "storage_name" = false →
      parse_container_names j = [Json.str ""]) := by
  refine ⟨?_, ?_, ?_, ?_⟩
  · unfold show_index_options
    rcases hp : pyGetItem j "index_name" with e | v
    · exact ⟨[], rfl⟩
    · cases v <;> exact ⟨_, rfl⟩
  · unfold parse_container_names
    rcases hp : pyGetItem j "storage_name" with e | v
    · exact ⟨[], rfl⟩
    · cases v <;> exact ⟨_, rfl⟩
  · intro hconcat
    unfold show_index_options
    unfold concatOk at hconcat
    rcases hp : pyGetItem j "index_name" with e | v
    · rfl
    · rw [hp] at hconcat
      cases v <;> first | rfl | simp at hconcat
  · intro hconcat
    unfold parse_container_names
    unfold concatOk at hconcat
    rcases hp : pyGetItem j "storage_name" with e | v
    · rfl
    · rw [hp] at hconcat
      cases v <;> first | rfl | simp at hconcat

/-- Witness for C10 at the concrete non-dict input `null`. -/
theorem claim_C10_witness :
    concatOk Json.null "index_name" = false ∧
      show_index_options Json.null = [Json.str ""] ∧
      parse_container_names Json.null = [Json.str ""] :=
  ⟨rfl, (claim_C10 Json.null).2.2.1 rfl, (claim_C10 Json.null).2.2.2 rfl⟩

/-- Claim C5: a query invocation with index list `["foo"]`, type `"global"`
and text `"hello"` issues a POST to `{base}/query/global` (the type
lower-cased before use) whose JSON body is exactly
`{"index_name": ["foo"], "query": "hello", "reformat_context_data": true}` —
`query_index` performs precisely `query_index_request`, stated here. -/
theorem claim_C5 (api_url : String) (headers : List (String × String)) :
    query_index_request ["foo"] "global" "hello" api_url headers =
      { method := "POST",
        url := api_url ++ "/query/global",
        headers := headers,
        jsonBody := some (Json.obj
          [("index_name", Json.arr [Json.str "foo"]),
           ("query", Json.str "hello"),
           ("reformat_context_data", Json.bool true)]) } := by
  have h : pyLower "global" = "global" := by decide
  have h2 : ("/query/" ++ "global" : String) = "/query/global" := by decide
  simp only [query_index_request, h, String.append_assoc, h2]
  rfl

/-- Claim C3: session-state initialization is idempotent: for every prior
session state it creates each missing fixed key with the empty string, while
a key already holding any value — including a non-empty one — keeps that
value, and running the initialization a second time changes nothing. -/
theorem claim_C3 (s : SessionState) :
    (∀ k, k ∈ sessionInitKeys → s.lookup k = none →
        (set_session_state_variables s).lookup k = some (some "")) ∧
    (∀ k v, s.lookup k = some v →
        (set_session_state_variables s).lookup k = some v) ∧
    set_session_state_variables (set_session_state_variables s) =
      set_session_state_variables s := by
  refine ⟨?_, ?_, ?_⟩
  · intro k hk hnone
    unfold set_session_state_variables
    rw [lookup_foldl_initKey]
    simp [hk, hnone]
  · intro k v hv
    unfold set_session_state_variables
    rw [lookup_foldl_initKey]
    by_cases hk : k ∈ sessionInitKeys <;> simp [hk, hv]
  · unfold set_session_state_variables
    apply foldl_initKey_of_present
    intro k hk
    rw [lookup_foldl_initKey]
    simp [hk]

/-- Witness for C3 at a concrete state holding a non-empty summary value:
the missing entity key is created empty, the existing value is untouched. -/
theorem claim_C3_witness :
    (set_session_state_variables [(PromptKeys_SUMMARY, some "custom")]).lookup
        PromptKeys_ENTITY = some (some "") ∧
      (set_session_state_variables [(PromptKeys_SUMMARY, some "custom")]).lookup
        PromptKeys_SUMMARY = some (some "custom") :=
  ⟨(claim_C3 [(PromptKeys_SUMMARY, some "custom")]).1 PromptKeys_ENTITY
      (by decide) (by decide),
    (claim_C3 [(PromptKeys_SUMMARY, some "custom")]).2.1 PromptKeys_SUMMARY
      (some "custom") (by decide)⟩

/-- Claim C6: the session-state prompt update is dual-mode.  With the
`initial_setting` flag set, the three explicit arguments are ignored (any two
argument triples give the same result) and the stored prompt values are the
triple loaded by `get_prompts` from the given directory; without the flag,
the three explicit arguments are stored as given. -/
theorem claim_C6 (s : SessionState) (x y z x' y' z' : Option String)
    (dir : PromptDir) (a b c : String)
    (h : get_prompts dir = .ok (a, b, c)) :
    update_session_state_prompt_vars x y z true dir s =
      update_session_state_prompt_vars x' y' z' true dir s ∧
    (∃ t, update_session_state_prompt_vars x y z true dir s = .ok t ∧
      t.lookup PromptKeys_SUMMARY = some (some a) ∧
      t.lookup PromptKeys_ENTITY = some (some b) ∧
      t.lookup PromptKeys_COMMUNITY = some (some c)) ∧
    (∃ u, update_session_state_prompt_vars x y z false dir s = .ok u ∧
      u.lookup PromptKeys_SUMMARY = some x ∧
      u.lookup PromptKeys_ENTITY = some y ∧
      u.lookup PromptKeys_COMMUNITY = some z) := by
  have hse : PromptKeys_SUMMARY ≠ PromptKeys_ENTITY := by decide
  have hsc : PromptKeys_SUMMARY ≠ PromptKeys_COMMUNITY := by decide
  have hec : PromptKeys_ENTITY ≠ PromptKeys_COMMUNITY := by decide
  refine ⟨?_, ?_, ?_⟩
  · simp [update_session_state_prompt_vars, h]
  · refine ⟨setVal (setVal (setVal s PromptKeys_SUMMARY (some a))
        PromptKeys_ENTITY (some b)) PromptKeys_COMMUNITY (some c),
      by simp [update_session_state_prompt_vars, h], ?_, ?_, ?_⟩ <;>
      simp [lookup_setVal, hse, hsc, hec]
  · refine ⟨setVal (setVal (setVal s PromptKeys_SUMMARY x)
        PromptKeys_ENTITY y) PromptKeys_COMMUNITY z,
      by simp [update_session_state_prompt_vars], ?_, ?_, ?_⟩ <;>
      simp [lookup_setVal, hse, hsc, hec]

/-- Witness for C6 at a concrete prompt directory and two distinct explicit
argument triples. -/
theorem claim_C6_witness :
    get_prompts [("summary.txt", "S"), ("entity_x.txt", "E"),
        ("community_y.txt", "K")] = .ok ("S", "E", "K") ∧
      (update_session_state_prompt_vars none none none true
          [("summary.txt", "S"), ("entity_x.txt", "E"), ("community_y.txt", "K")]
          [] =
        update_session_state_prompt_vars (some "p") (some "q") (some "r") true
          [("summary.txt", "S"), ("entity_x.txt", "E"), ("community_y.txt", "K")]
          []) :=
  ⟨rfl,
    (claim_C6 [] none none none (some "p") (some "q") (some "r")
      [("summary.txt", "S"), ("entity_x.txt", "E"), ("community_y.txt", "K")]
      "S" "E" "K" rfl).1⟩

/-- Counterexample to claim C2 as stated: the claim predicts an unguarded
index-out-of-range failure whenever more than one `.txt` file matches a name
beginning ("it succeeds only when exactly one file matches each"), but on a
directory with two `summ*` files (and one of each other kind) `get_prompts`
succeeds, using the first match. -/
theorem claim_C2_counterexample :
    get_prompts [("summ_a.txt", "A"), ("summ_b.txt", "B"),
        ("entity.txt", "E"), ("community.txt", "K")] = .ok ("A", "E", "K") := rfl

/-- Claim C2 amended: `get_prompts` raises the unguarded `IndexError` exactly
when zero `.txt` files match one of the beginnings `summ`/`entity`/
`community`; whenever each beginning has at least one match it succeeds,
returning the first match of each in directory order. -/
theorem claim_C2_amended (dir : PromptDir) :
    (get_prompts dir = .error indexErrorMsg ↔
      (txtMatches dir "summ" = [] ∨ txtMatches dir "entity" = [] ∨
        txtMatches dir "community" = [])) ∧
    (∀ a as b bs c cs, txtMatches dir "summ" = a :: as →
      txtMatches dir "entity" = b :: bs →
      txtMatches dir "community" = c :: cs →
      get_prompts dir = .ok (a, b, c)) := by
  constructor
  · rcases hs : txtMatches dir "summ" with _ | ⟨a, as⟩ <;>
      rcases he : txtMatches dir "entity" with _ | ⟨b, bs⟩ <;>
        rcases hc : txtMatches dir "community" with _ | ⟨c, cs⟩ <;>
          simp [get_prompts, hs, he, hc, indexErrorMsg]
  · intro a as b bs c cs hs he hc
    simp [get_prompts, hs, he, hc]

/-- Witness for the amended C2: zero matches for `summ` raise the
`IndexError`; one match of each succeeds with the three contents. -/
theorem claim_C2_amended_witness :
    get_prompts [("entity.txt", "E")] = .error indexErrorMsg ∧
      get_prompts [("summary.txt", "S"), ("entity.txt", "E"),
        ("community.txt", "K")] = .ok ("S", "E", "K") :=
  ⟨(claim_C2_amended [("entity.txt", "E")]).1.mpr (Or.inl rfl),
    (claim_C2_amended [("summary.txt", "S"), ("entity.txt", "E"),
        ("community.txt", "K")]).2 "S" [] "E" [] "K" [] rfl rfl rfl⟩

/-- Claim C4: round-trip.  A prompt directory produced by
`generate_and_extract_prompts` from a well-formed archive holding exactly one
`.txt` file per name beginning loads back as exactly those three contents, as
a triple in (summary, entity, community) order. -/
theorem claim_C4 (dir : PromptDir) (cs ce cc : String)
    (hs : txtMatches dir "summ" = [cs]) (he : txtMatches dir "entity" = [ce])
    (hc : txtMatches dir "community" = [cc]) :
    generate_and_extract_prompts (.response 200 (.valid dir)) = .ok dir ∧
      get_prompts dir = .ok (cs, ce, cc) := by
  constructor
  · rfl
  · simp [get_prompts, hs, he, hc]

/-- Witness for C4 at the spec's example archive
(`summary.txt`, `entity_x.txt`, `community_y.txt`). -/
theorem claim_C4_witness :
    generate_and_extract_prompts (.response 200 (.valid
        [("summary.txt", "SP"), ("entity_x.txt", "EP"),
          ("community_y.txt", "KP")])) =
      .ok [("summary.txt", "SP"), ("entity_x.txt", "EP"),
        ("community_y.txt", "KP")] ∧
      get_prompts [("summary.txt", "SP"), ("entity_x.txt", "EP"),
        ("community_y.txt", "KP")] = .ok ("SP", "EP", "KP") :=
  claim_C4 [("summary.txt", "SP"), ("entity_x.txt", "EP"),
    ("community_y.txt", "KP")] "SP" "EP" "KP" rfl rfl rfl

/-- Counterexample to claim C7 as stated: the claim says every non-2xx status
aborts the download with a raised error and writes nothing, but
`r.raise_for_status()` raises only for statuses in `[400, 600)`; at the
non-2xx status 304 the download does not raise and the body is written. -/
theorem claim_C7_counterexample :
    generate_prompts_download (.response 304 (.valid [])) =
      (some (.valid []), .ok ()) := rfl

/-- Claim C7 amended: the download step raises (writing no data) exactly for
statuses in `[400, 600)` and for transport exceptions; statuses outside that
range — including non-2xx ones such as 304 — do not raise and the body is
written; and extracting a malformed zip archive raises. -/
theorem claim_C7_amended (status : Nat) (body : ZipBytes) (e : String) :
    (400 ≤ status → status < 600 →
      generate_prompts_download (.response status body) =
        (none, .error ("HTTPError: " ++ toString status))) ∧
    generate_prompts_download (.exception e) = (none, .error e) ∧
    (¬ (400 ≤ status ∧ status < 600) →
      generate_prompts_download (.response status body) = (some body, .ok ())) ∧
    extract_prompts_from_zip (some .malformed) = .error "BadZipFile" := by
  refine ⟨?_, rfl, ?_, rfl⟩
  · intro h4 h6
    simp [generate_prompts_download, h4, h6]
  · intro hout
    simp [generate_prompts_download, hout]

/-- Witness for the amended C7 at status 500 and at a transport exception. -/
theorem claim_C7_amended_witness :
    generate_prompts_download (.response 500 (.valid [])) =
      (none, .error ("HTTPError: " ++ toString 500)) ∧
      generate_prompts_download (.exception "ConnectionError") =
        (none, .error "ConnectionError") ∧
      generate_prompts_download (.response 200 (.valid [])) =
        (some (.valid []), .ok ()) :=
  ⟨(claim_C7_amended 500 (.valid []) "ConnectionError").1 (by decide) (by decide),
    (claim_C7_amended 500 (.valid []) "ConnectionError").2.1,
    (claim_C7_amended 200 (.valid []) "ConnectionError").2.2.1 (by decide)⟩

/-- Counterexample to claim C1 as stated: the claim includes "submitting an
index-build job" among the operations that return a null result and never
raise on failure, but `build_index` has no try/except and no status check: a
transport exception propagates to the caller, and a non-200 response is
returned as data (the raw response object), not as a null result. -/
theorem claim_C1_counterexample :
    build_index "http://api" [] "storage1" "index1" none none none
        (fun _ => .exception "ConnectionError") =
      (.raised "ConnectionError", []) ∧
      build_index "http://api" [] "storage1" "index1" none none none
        (fun _ => .response 500 Json.null) =
      (.ok ⟨500, Json.null⟩, []) := ⟨rfl, rfl⟩

/-- Claim C1 amended: the five JSON wrapper operations (listing storage
containers, fetching entity-extraction config, listing indexes, submitting a
query, fetching a source entity) return a null result and never raise on any
non-200 response or transport exception, emitting an error message; the
prompt-download path must raise instead; and `build_index` is the other
exception: it returns the raw response whatever the status and propagates
transport exceptions. -/
theorem claim_C1_amended (api_url : String) (headers : List (String × String))
    (perform : Request → HttpOutcome) :
    (is_failure (perform (get_storage_container_names_request api_url headers)) =
        true →
      (get_storage_container_names api_url headers perform).1 = .ok none ∧
      (get_storage_container_names api_url headers perform).2 ≠ []) ∧
    (is_failure (perform (get_entity_data_request api_url headers)) = true →
      (get_entity_data api_url headers perform).1 = .ok none ∧
      (get_entity_data api_url headers perform).2 ≠ []) ∧
    (is_failure (perform (get_indexes_data_request api_url headers)) = true →
      (get_indexes_data api_url headers perform).1 = .ok none ∧
      (get_indexes_data api_url headers perform).2 ≠ []) ∧
    (∀ index_name query_type query,
      is_failure (perform (query_index_request index_name query_type query
          api_url headers)) = true →
      (query_index index_name query_type query api_url headers perform).1 =
        .ok none ∧
      (query_index index_name query_type query api_url headers perform).2 ≠
        []) ∧
    (∀ index_name entity_id,
      is_failure (perform (get_source_entity_request index_name entity_id
          api_url headers)) = true →
      (get_source_entity index_name entity_id api_url headers perform).1 =
        .ok none ∧
      (get_source_entity index_name entity_id api_url headers perform).2 ≠
        []) ∧
    (∀ storage_name index_name p1 p2 p3 status body e,
      (perform (build_index_request api_url headers storage_name index_name
          p1 p2 p3) = .response status body →
        build_index api_url headers storage_name index_name p1 p2 p3 perform =
          (.ok ⟨status, body⟩, [])) ∧
      (perform (build_index_request api_url headers storage_name index_name
          p1 p2 p3) = .exception e →
        build_index api_url headers storage_name index_name p1 p2 p3 perform =
          (.raised e, []))) := by
  refine ⟨?_, ?_, ?_, ?_, ?_, ?_⟩
  · intro hfail
    rcases ho : perform (get_storage_container_names_request api_url headers)
      with ⟨s, b⟩ | e
    · rw [ho] at hfail
      simp only [is_failure, bne_iff_ne, ne_eq] at hfail
      have hb : (s == 200) = false := beq_eq_false_iff_ne.mpr hfail
      simp [get_storage_container_names, ho, hb]
    · simp [get_storage_container_names, ho]
  · intro hfail
    rcases ho : perform (get_entity_data_request api_url headers)
      with ⟨s, b⟩ | e
    · rw [ho] at hfail
      simp only [is_failure, bne_iff_ne, ne_eq] at hfail
      have hb : (s == 200) = false := beq_eq_false_iff_ne.mpr hfail
      simp [get_entity_data, ho, hb]
    · simp [get_entity_data, ho]
  · intro hfail
    rcases ho : perform (get_indexes_data_request api_url headers)
      with ⟨s, b⟩ | e
    · rw [ho] at hfail
      simp only [is_failure, bne_iff_ne, ne_eq] at hfail
      have hb : (s == 200) = false := beq_eq_false_iff_ne.mpr hfail
      simp [get_indexes_data, ho, hb]
    · simp [get_indexes_data, ho]
  · intro index_name query_type query hfail
    rcases ho : perform (query_index_request index_name query_type query
        api_url headers) with ⟨s, b⟩ | e
    · rw [ho] at hfail
      simp only [is_failure, bne_iff_ne, ne_eq] at hfail
      have hb : (s == 200) = false := beq_eq_false_iff_ne.mpr hfail
      simp [query_index, ho, hb]
    · simp [query_index, ho]
  · intro index_name entity_id hfail
    rcases ho : perform (get_source_entity_request index_name entity_id
        api_url headers) with ⟨s, b⟩ | e
    · rw [ho] at hfail
      simp only [is_failure, bne_iff_ne, ne_eq] at hfail
      have hb : (s == 200) = false := beq_eq_false_iff_ne.mpr hfail
      simp [get_source_entity, ho, hb]
    · simp [get_source_entity, ho]
  · intro storage_name index_name p1 p2 p3 status body e
    constructor
    · intro ho
      simp [build_index, ho]
    · intro ho
      simp [build_index, ho]

/-- Witness for the amended C1 with a performer that always answers 404. -/
theorem claim_C1_amended_witness :
    (get_storage_container_names "http://api" []
        (fun _ => .response 404 Json.null)).1 = .ok none ∧
      (query_index ["foo"] "global" "hello" "http://api" []
        (fun _ => .response 404 Json.null)).1 = .ok none ∧
      build_index "http://api" [] "storage1" "index1" none none none
        (fun _ => .response 404 Json.null) = (.ok ⟨404, Json.null⟩, []) :=
  ⟨((claim_C1_amended "http://api" [] (fun _ => .response 404 Json.null)).1
      rfl).1,
    (((claim_C1_amended "http://api" [] (fun _ => .response 404 Json.null)).2.2.2.1
      ["foo"] "global" "hello") rfl).1,
    ((claim_C1_amended "http://api" [] (fun _ => .response 404 Json.null)).2.2.2.2.2
      "storage1" "index1" none none none 404 Json.null "e").1 rfl⟩

end GraphragFrontend
